import Mathlib

/-
Verification of the Sign component (src/sign.rs of the time crate).

Embedding notes:
- Rust signed integers iN are modelled as Int values in the range
  [-(2^(N-1)), 2^(N-1) - 1], parameterized by the bit width.
- Rust unary negation on iN overflows exactly at the type's minimum value.
  With overflow checks enabled (the debug/test profile) this panics, so
  fallible negation is modelled as an Option-returning function.
- IEEE-754 floats are modelled at bit-pattern level as a sign bit plus the
  magnitude bits (exponent and mantissa combined); IEEE negation is an exact
  sign-bit flip and never fails, and the canonical zero is the all-zero
  pattern with a clear sign bit (positive zero).
-/

/-- The three-variant sign enumeration from src/sign.rs. -/
inductive Sign where
  | Positive : Sign
  | Negative : Sign
  | Zero : Sign
deriving DecidableEq, Repr

/-- Discriminant of the enum as laid out in the source (declaration order). -/
def Sign.discriminant : Sign → Nat
  | Sign.Positive => 0
  | Sign.Negative => 1
  | Sign.Zero => 2

/-- Default for Sign: returns Zero (impl Default for Sign). -/
def Sign.defaultValue : Sign := Sign.Zero

/-- Sign::is_positive, written in the source as self as u8 == Positive as u8. -/
def Sign.is_positive (s : Sign) : Bool :=
  s.discriminant == Sign.Positive.discriminant

/-- Sign::is_negative, written in the source as self as u8 == Negative as u8. -/
def Sign.is_negative (s : Sign) : Bool :=
  s.discriminant == Sign.Negative.discriminant

/-- Sign::is_zero, written in the source as self as u8 == Zero as u8. -/
def Sign.is_zero (s : Sign) : Bool :=
  s.discriminant == Sign.Zero.discriminant

/-- Sign::negate from the source: Positive and Negative swap, Zero is fixed. -/
def Sign.negate : Sign → Sign
  | Sign.Positive => Sign.Negative
  | Sign.Negative => Sign.Positive
  | Sign.Zero => Sign.Zero

/-- Mul of Sign by Sign, the match of the source impl Mul for Sign. -/
def Sign.mulSign (a b : Sign) : Sign :=
  match a, b with
  | Sign.Zero, _ | _, Sign.Zero => Sign.Zero
  | Sign.Positive, Sign.Positive | Sign.Negative, Sign.Negative => Sign.Positive
  | Sign.Positive, Sign.Negative | Sign.Negative, Sign.Positive => Sign.Negative

/-- MulAssign of Sign by Sign: the source assigns self * rhs. -/
def Sign.mulAssignSign (a b : Sign) : Sign := Sign.mulSign a b

/-- Div of Sign by Sign: the source returns self * rhs. -/
def Sign.divSign (a b : Sign) : Sign := Sign.mulSign a b

/-- DivAssign of Sign by Sign: the source assigns via MulAssign. -/
def Sign.divAssignSign (a b : Sign) : Sign := Sign.mulAssignSign a b

/-- Minimum value of the signed integer type of width w. -/
def intMin (w : Nat) : Int := -(2 ^ (w - 1))

/-- Maximum value of the signed integer type of width w. -/
def intMax (w : Nat) : Int := 2 ^ (w - 1) - 1

/-- A value is representable in the signed integer type of width w. -/
def inRange (w : Nat) (v : Int) : Prop := intMin w ≤ v ∧ v ≤ intMax w

/-- Modelled from the spec: the numeric zero provider NumberExt::zero of
crate::shim (not under src/) yields the canonical zero of each integer
type, which is the integer 0. -/
def intZero : Int := 0

/-- Rust unary negation on the signed integer type of width w: overflows
(panics with overflow checks enabled) exactly when the operand is the
type's minimum value, otherwise yields the arithmetic negation. -/
def negChecked (w : Nat) (v : Int) : Option Int :=
  if v = intMin w then none else some (-v)

/-- Mul of Sign by an integer operand (impl Mul of the numeric type for
Sign, generated by sign_mul! for i8, i16, i32, i64, i128): Positive keeps
the operand, Negative negates it, Zero yields the type's zero. -/
def Sign.mulInt (w : Nat) (s : Sign) (rhs : Int) : Option Int :=
  match s with
  | Sign.Positive => some rhs
  | Sign.Negative => negChecked w rhs
  | Sign.Zero => some intZero

/-- Mul of an integer by a Sign (impl Mul of Sign for the numeric type),
symmetric to Sign.mulInt. -/
def mulIntSign (w : Nat) (v : Int) (s : Sign) : Option Int :=
  match s with
  | Sign.Positive => some v
  | Sign.Negative => negChecked w v
  | Sign.Zero => some intZero

/-- MulAssign of a Sign into an integer: the source negates the value in
place when rhs.is_negative and otherwise leaves it untouched. -/
def mulAssignIntSign (w : Nat) (v : Int) (s : Sign) : Option Int :=
  if s.is_negative then negChecked w v else some v

/-- Div of an integer by a Sign: the source returns self * rhs. -/
def divIntSign (w : Nat) (v : Int) (s : Sign) : Option Int :=
  mulIntSign w v s

/-- DivAssign of a Sign into an integer: the source assigns via MulAssign. -/
def divAssignIntSign (w : Nat) (v : Int) (s : Sign) : Option Int :=
  mulAssignIntSign w v s

/-- IEEE-754 binary floating-point bit pattern: a sign bit and the
remaining magnitude bits (exponent and mantissa together). Covers f32 and
f64; the operations of the component never depend on the field widths. -/
structure FloatRepr where
  signBit : Bool
  magBits : Nat
deriving DecidableEq, Repr

/-- IEEE-754 negation: flip the sign bit, keep the magnitude bits. Total. -/
def FloatRepr.fneg (f : FloatRepr) : FloatRepr :=
  FloatRepr.mk (!f.signBit) f.magBits

/-- Modelled from the spec: the numeric zero provider NumberExt::zero of
crate::shim (not under src/) yields, for floating-point types, the
canonical positive zero (clear sign bit, all magnitude bits zero). -/
def FloatRepr.zero : FloatRepr := FloatRepr.mk false 0

/-- Mul of Sign by a float operand (sign_mul! for f32, f64). -/
def Sign.mulFloat (s : Sign) (rhs : FloatRepr) : FloatRepr :=
  match s with
  | Sign.Positive => rhs
  | Sign.Negative => rhs.fneg
  | Sign.Zero => FloatRepr.zero

/-- Mul of a float by a Sign, symmetric to Sign.mulFloat. -/
def mulFloatSign (v : FloatRepr) (s : Sign) : FloatRepr :=
  match s with
  | Sign.Positive => v
  | Sign.Negative => v.fneg
  | Sign.Zero => FloatRepr.zero

/-- MulAssign of a Sign into a float: negate in place iff rhs.is_negative. -/
def mulAssignFloatSign (v : FloatRepr) (s : Sign) : FloatRepr :=
  if s.is_negative then v.fneg else v

/-- Div of a float by a Sign: the source returns self * rhs. -/
def divFloatSign (v : FloatRepr) (s : Sign) : FloatRepr :=
  mulFloatSign v s

/-- DivAssign of a Sign into a float: the source assigns via MulAssign. -/
def divAssignFloatSign (v : FloatRepr) (s : Sign) : FloatRepr :=
  mulAssignFloatSign v s

/-- C1 counterexample: the claim that every operation completes without any
failure mode is false at the minimum value of i8: with the overflow checks
of the debug/test profile, Negative * (-128 : i8) panics, since arithmetic
negation of the minimum value overflows. -/
theorem c1_negative_mul_int_min_fails :
    Sign.mulInt 8 Sign.Negative (-128) = none ∧ intMin 8 = -128 := by
  constructor
  · decide
  · decide

/-- C1 (amended): every Sign-by-Sign operation, predicate, negate, default,
and every float operation is total, and the Sign-by-integer operations
succeed exactly when the operand is not the minimum value with an effective
Negative sign: for every width w, Sign s and integer v, each of the five
integer operations returns a value iff not (s is Negative and v is the
type's minimum). -/
theorem c1_int_ops_total_except_negating_min (w : Nat) (s : Sign) (v : Int) :
    ((Sign.mulInt w s v).isSome = true ↔ ¬(s = Sign.Negative ∧ v = intMin w)) ∧
    ((mulIntSign w v s).isSome = true ↔ ¬(s = Sign.Negative ∧ v = intMin w)) ∧
    ((mulAssignIntSign w v s).isSome = true ↔ ¬(s = Sign.Negative ∧ v = intMin w)) ∧
    ((divIntSign w v s).isSome = true ↔ ¬(s = Sign.Negative ∧ v = intMin w)) ∧
    ((divAssignIntSign w v s).isSome = true ↔ ¬(s = Sign.Negative ∧ v = intMin w)) := by
  cases s <;>
    simp only [Sign.mulInt, mulIntSign, mulAssignIntSign, divIntSign, divAssignIntSign,
      negChecked, Sign.is_negative, Sign.discriminant] <;>
    refine ⟨?_, ?_, ?_, ?_, ?_⟩ <;>
    simp

/-- C2: for every width w, integer v and float f, the multiply-assign by a
sign negates the value iff the sign is Negative: assigning Zero or Positive
leaves the value unchanged and assigning Negative performs arithmetic
negation; this differs from the non-assigning multiply, which collapses the
value to the canonical zero when the sign is Zero, so the two operations
disagree at every nonzero value. -/
theorem c2_mul_assign_negates_iff_negative (w : Nat) (v : Int) (f : FloatRepr) :
    mulAssignIntSign w v Sign.Zero = some v ∧
    mulAssignIntSign w v Sign.Positive = some v ∧
    mulAssignIntSign w v Sign.Negative = negChecked w v ∧
    mulAssignFloatSign f Sign.Zero = f ∧
    mulAssignFloatSign f Sign.Positive = f ∧
    mulAssignFloatSign f Sign.Negative = f.fneg ∧
    mulIntSign w v Sign.Zero = some intZero ∧
    mulFloatSign f Sign.Zero = FloatRepr.zero ∧
    (v ≠ intZero → mulIntSign w v Sign.Zero ≠ mulAssignIntSign w v Sign.Zero) ∧
    (f ≠ FloatRepr.zero → mulFloatSign f Sign.Zero ≠ mulAssignFloatSign f Sign.Zero) := by
  refine ⟨rfl, rfl, rfl, rfl, rfl, rfl, rfl, rfl, ?_, ?_⟩
  · intro hv h
    exact hv (Option.some.inj h).symm
  · intro hf h
    exact hf h.symm

/-- C2 witness at w = 8, v = 2, f = negative one bit pattern. -/
theorem c2_witness :
    ((2 : Int) ≠ intZero ∧ mulIntSign 8 2 Sign.Zero ≠ mulAssignIntSign 8 2 Sign.Zero) ∧
    (FloatRepr.mk true 5 ≠ FloatRepr.zero ∧
      mulFloatSign (FloatRepr.mk true 5) Sign.Zero ≠
        mulAssignFloatSign (FloatRepr.mk true 5) Sign.Zero) :=
  ⟨⟨by decide,
    (c2_mul_assign_negates_iff_negative 8 2 (FloatRepr.mk true 5)).2.2.2.2.2.2.2.2.1
      (by decide)⟩,
   ⟨by decide,
    (c2_mul_assign_negates_iff_negative 8 2 (FloatRepr.mk true 5)).2.2.2.2.2.2.2.2.2
      (by decide)⟩⟩

/-- C3: for every width w, integer v and float bit pattern f: Positive * v
is v, Negative * v is the arithmetic negation of v (with its overflow
behaviour), Zero * v is the canonical zero of the type; for floats the
result of Zero * f is the positive-zero bit pattern whatever the sign bit
of f. -/
theorem c3_sign_times_value_table (w : Nat) (v : Int) (f : FloatRepr) :
    Sign.mulInt w Sign.Positive v = some v ∧
    Sign.mulInt w Sign.Negative v = negChecked w v ∧
    Sign.mulInt w Sign.Zero v = some intZero ∧
    Sign.mulFloat Sign.Positive f = f ∧
    Sign.mulFloat Sign.Negative f = f.fneg ∧
    Sign.mulFloat Sign.Zero f = FloatRepr.zero ∧
    (Sign.mulFloat Sign.Zero f).signBit = false ∧
    (Sign.mulFloat Sign.Zero f).magBits = 0 :=
  ⟨rfl, rfl, rfl, rfl, rfl, rfl, rfl, rfl⟩

/-- C4: Sign-by-Sign multiplication realises the 9-entry truth table of
real-number sign algebra: either operand Zero gives Zero, equal non-zero
operands give Positive, opposite non-zero operands give Negative. -/
theorem c4_sign_mul_sign_table (a b : Sign) :
    Sign.mulSign a b =
      if a = Sign.Zero ∨ b = Sign.Zero then Sign.Zero
      else if a = b then Sign.Positive
      else Sign.Negative := by
  cases a <;> cases b <;> decide

/-- C5: Sign-by-Sign division coincides with multiplication, and both
assigning forms replace the left operand with the multiplication-table
result. -/
theorem c5_sign_div_eq_mul (a b : Sign) :
    Sign.divSign a b = Sign.mulSign a b ∧
    Sign.mulAssignSign a b = Sign.mulSign a b ∧
    Sign.divAssignSign a b = Sign.mulSign a b :=
  ⟨rfl, rfl, rfl⟩

/-- C6: dividing a numeric value by a sign is the multiply, and the
assigning division has exactly the effect of the assigning multiply, for
integers of every width and for floats. -/
theorem c6_value_div_eq_mul (w : Nat) (v : Int) (f : FloatRepr) (s : Sign) :
    divIntSign w v s = mulIntSign w v s ∧
    divAssignIntSign w v s = mulAssignIntSign w v s ∧
    divFloatSign f s = mulFloatSign f s ∧
    divAssignFloatSign f s = mulAssignFloatSign f s :=
  ⟨rfl, rfl, rfl, rfl⟩

/-- C7 counterexample: the round-trip (v * Negative) * Negative fails for
i8 at v = -128: the first multiplication already overflows, so the chain
does not return v. -/
theorem c7_roundtrip_fails_at_int_min :
    ¬((mulIntSign 8 (-128) Sign.Negative).bind
        (fun u => mulIntSign 8 u Sign.Negative) = some (-128)) := by
  decide

/-- C7 (amended): the Positive round-trip returns v for every integer, and
the Negative round-trip returns v for every representable integer except
the type's minimum value, where negation overflows; for floats both
round-trips restore the exact bit pattern of every value. -/
theorem c7_roundtrip (w : Nat) (v : Int) (f : FloatRepr) :
    (mulIntSign w v Sign.Positive).bind
        (fun u => mulIntSign w u Sign.Positive) = some v ∧
    (inRange w v → v ≠ intMin w →
      (mulIntSign w v Sign.Negative).bind
        (fun u => mulIntSign w u Sign.Negative) = some v) ∧
    mulFloatSign (mulFloatSign f Sign.Positive) Sign.Positive = f ∧
    mulFloatSign (mulFloatSign f Sign.Negative) Sign.Negative = f := by
  refine ⟨rfl, ?_, rfl, ?_⟩
  · intro hr hv
    simp only [mulIntSign, negChecked, inRange, intMin, intMax] at hr hv ⊢
    have hne2 : -v ≠ -((2 : Int) ^ (w - 1)) := by
      intro h
      have h2 := neg_injective h
      linarith [hr.2]
    rw [if_neg hv]
    show (if -v = -((2 : Int) ^ (w - 1)) then none else some (-(-v))) = some v
    rw [if_neg hne2, neg_neg]
  · simp [mulFloatSign, FloatRepr.fneg]

/-- C7 witness at w = 8, v = 5, f = negative one bit pattern. -/
theorem c7_witness :
    inRange 8 5 ∧ (5 : Int) ≠ intMin 8 ∧
    (mulIntSign 8 5 Sign.Negative).bind
      (fun u => mulIntSign 8 u Sign.Negative) = some 5 :=
  ⟨⟨by decide, by decide⟩, by decide,
    (c7_roundtrip 8 5 (FloatRepr.mk true 5)).2.1 ⟨by decide, by decide⟩ (by decide)⟩

/-- C8: negate is an involution with Zero as fixed point, swapping Positive
and Negative. -/
theorem c8_negate_involution (s : Sign) :
    s.negate.negate = s ∧
    Sign.Positive.negate = Sign.Negative ∧
    Sign.Negative.negate = Sign.Positive ∧
    Sign.Zero.negate = Sign.Zero := by
  cases s <;> exact ⟨rfl, rfl, rfl, rfl⟩

/-- C9: each predicate holds exactly on its own variant, so exactly one of
the three predicates is true of any Sign. -/
theorem c9_predicates_partition (s : Sign) :
    (s.is_positive = true ↔ s = Sign.Positive) ∧
    (s.is_negative = true ↔ s = Sign.Negative) ∧
    (s.is_zero = true ↔ s = Sign.Zero) ∧
    List.count true [s.is_positive, s.is_negative, s.is_zero] = 1 := by
  cases s <;> decide

/-- C10: Sign-by-Sign multiplication is a commutative monoid with identity
Positive and absorbing element Zero. -/
theorem c10_sign_mul_comm_monoid (a b c : Sign) :
    Sign.mulSign a b = Sign.mulSign b a ∧
    Sign.mulSign (Sign.mulSign a b) c = Sign.mulSign a (Sign.mulSign b c) ∧
    Sign.mulSign Sign.Positive a = a ∧
    Sign.mulSign a Sign.Positive = a ∧
    Sign.mulSign Sign.Zero a = Sign.Zero ∧
    Sign.mulSign a Sign.Zero = Sign.Zero := by
  cases a <;> cases b <;> cases c <;> decide
